import Mathlib

/-!
Verification of the control-plane of the model-serving runtime: the
file-system storage path source (version discovery) and the batching
session wrapper (batch admission control).

Definitions are shallow embeddings of the C++ sources
`sources/storage_path/file_system_storage_path_source.h` and
`servables/tensorflow/bundle_factory_util.cc`.  Where the repository
excerpt only declares an operation (the `.cc` implementing it is not part
of the excerpt), the definition is modelled from the specification and its
doc comment says so.
-/

/-- Error codes mirroring the tensorflow Status codes used by the sources:
`errors::Internal`, `errors::InvalidArgument`, the invalid-state error for
an illegal polling-period change, and `errors::Unavailable` for admission
rejections. -/
inductive ErrorCode where
  | internal
  | invalidArgument
  | invalidState
  | unavailable
deriving DecidableEq, Repr

/-- An aspired version as emitted by the storage path source:
`{version_number, storage_path}` (the servable name travels separately in
the callback invocation). -/
structure ServableVersion where
  version : Nat
  path : String
deriving DecidableEq, Repr

/-- Parse a base-path child name as a non-negative integer: the full name
must be non-empty and consist only of decimal digits.  Mirrors the
"children whose name is a number" test of the class comment of
`FileSystemStoragePathSource`. -/
def parseNonNegInt (s : String) : Option Nat :=
  let cs := s.data
  if cs.isEmpty then none
  else if cs.all Char.isDigit then
    some (cs.foldl (fun n c => n * 10 + (c.toNat - 48)) 0)
  else none

/-- The base-path children paired with their parsed numeric value;
children whose name does not parse are dropped (never an error). -/
def numericChildren (children : List String) : List (String × Nat) :=
  children.filterMap (fun c => (parseNonNegInt c).map (fun n => (c, n)))

/-- The numeric child with the largest parsed value (first occurrence wins
on ties), or `none` when the list is empty. -/
def maxNumericChild : List (String × Nat) → Option (String × Nat)
  | [] => none
  | p :: ps =>
    match maxNumericChild ps with
    | none => some p
    | some q => if q.2 > p.2 then some q else some p

/-- Modelled from the spec: the body of
`FileSystemStoragePathSource::PollFileSystemAndInvokeCallback` is not in
the source excerpt (only its declaration and doc comment are).  Per the
spec's poll algorithm, the versions list handed to the callback for one
servable is empty when no child name parses as a non-negative integer, and
otherwise is the singleton `{version = max, path = base/child}` for the
numeric child with the maximum value. -/
def pollServable (base : String) (children : List String) : List ServableVersion :=
  match maxNumericChild (numericChildren children) with
  | none => []
  | some p => [⟨p.2, base ++ "/" ++ p.1⟩]

/-- One servable entry of `FileSystemStoragePathSourceConfig`:
`{servable_name, base_path}`. -/
structure ServableToMonitor where
  servable_name : String
  base_path : String
deriving DecidableEq, Repr

/-- The configuration of a `FileSystemStoragePathSource`: the monitored
servables plus the process-wide file-system polling period. -/
structure FileSystemStoragePathSourceConfig where
  servables : List ServableToMonitor
  file_system_poll_wait_seconds : Int
deriving DecidableEq, Repr

/-- The `fs_polling_thread_` field, an
`absl::variant<absl::monostate, PeriodicFunction, std::unique_ptr<Thread>>`:
not started, a periodic poller, or a one-shot polling thread. -/
inductive ThreadType where
  | monostate
  | periodic
  | oneShot
deriving DecidableEq, Repr

/-- The mutable state of a `FileSystemStoragePathSource`.  Callbacks and
notifiers are modelled by identity tags (`Option Nat`): `none` is an unset
`std::function`, `some id` a set one, so that invocation events can record
which registered function ran. -/
structure FileSystemStoragePathSource where
  config : FileSystemStoragePathSourceConfig
  aspired_versions_callback : Option Nat
  aspired_versions_callback_notifier : Option Nat
  fs_polling_thread : ThreadType
deriving DecidableEq, Repr

/-- Observable invocation events: the aspired-versions callback running
with a servable name and a versions list, or the test notifier running.
The `Nat` tag records which registered function object ran. -/
inductive CallbackEvent where
  | callbackRun (id : Nat) (servable_name : String) (versions : List ServableVersion)
  | notifierRun (id : Nat)
deriving DecidableEq, Repr

/-- Embeds `FileSystemStoragePathSource::CallAspiredVersionsCallback` from
the source header: if `aspired_versions_callback_` is set, invoke it with
the arguments, then, if `aspired_versions_callback_notifier_` is set,
invoke the notifier; otherwise do nothing.  The return value is the list
of invocation events, in order. -/
def callAspiredVersionsCallback (s : FileSystemStoragePathSource)
    (servable_name : String) (versions : List ServableVersion) : List CallbackEvent :=
  match s.aspired_versions_callback with
  | none => []
  | some cb =>
    CallbackEvent.callbackRun cb servable_name versions ::
      (match s.aspired_versions_callback_notifier with
       | none => []
       | some nf => [CallbackEvent.notifierRun nf])

/-- Modelled from the spec: the body of
`FileSystemStoragePathSource::SetAspiredVersionsCallback` is not in the
source excerpt.  Per the spec it registers the one callback all future
notifications are delivered to (replacing any prior one) and starts the
background polling activity if it has not already started (periodic for a
positive polling period, one-shot otherwise). -/
def setAspiredVersionsCallback (s : FileSystemStoragePathSource) (cb : Nat) :
    FileSystemStoragePathSource :=
  { s with
    aspired_versions_callback := some cb,
    fs_polling_thread :=
      match s.fs_polling_thread with
      | ThreadType.monostate =>
        if s.config.file_system_poll_wait_seconds > 0 then ThreadType.periodic
        else ThreadType.oneShot
      | t => t }

/-- The servable names present in the old configuration but absent from
the new one (names deduplicated, as `UnaspireServables` receives a
`std::set<string>`). -/
def droppedServableNames (old_config new_config : FileSystemStoragePathSourceConfig) :
    List String :=
  ((old_config.servables.map ServableToMonitor.servable_name).dedup).filter
    (fun name =>
      decide (name ∉ new_config.servables.map ServableToMonitor.servable_name))

/-- Modelled from the spec: the body of
`FileSystemStoragePathSource::UnaspireServables` is not in the source
excerpt (only its declaration: sends empty aspired-versions lists for each
servable in `servable_names`).  Each name is delivered through
`CallAspiredVersionsCallback` with an empty versions list. -/
def unaspireServables (s : FileSystemStoragePathSource) (servable_names : List String) :
    List CallbackEvent :=
  servable_names.flatMap (fun name => callAspiredVersionsCallback s name [])

/-- Modelled from the spec: the body of
`FileSystemStoragePathSource::UpdateConfig` is not in the source excerpt.
Per the header's doc comment and the spec: changing the polling period
once the polling activity has started (that is, after
`SetAspiredVersionsCallback`) fails with an invalid-state error, leaving
the state unchanged and emitting nothing; otherwise every servable present
before but absent after is unaspired synchronously and the configuration
is replaced.  Returns (status, new state, emitted events). -/
def updateConfig (s : FileSystemStoragePathSource)
    (new_config : FileSystemStoragePathSourceConfig) :
    Except ErrorCode Unit × FileSystemStoragePathSource × List CallbackEvent :=
  if s.fs_polling_thread ≠ ThreadType.monostate ∧
      new_config.file_system_poll_wait_seconds ≠ s.config.file_system_poll_wait_seconds then
    (Except.error ErrorCode.invalidState, s, [])
  else
    (Except.ok (), { s with config := new_config },
      unaspireServables s (droppedServableNames s.config new_config))

/-- Modelled from the spec: one poll tick for one configured servable,
with `children` the successful listing of its base path.  The versions
list computed by `pollServable` is reported through
`CallAspiredVersionsCallback`. -/
def pollServableAndInvokeCallback (s : FileSystemStoragePathSource)
    (sv : ServableToMonitor) (children : List String) : List CallbackEvent :=
  callAspiredVersionsCallback s sv.servable_name
    (pollServable sv.base_path children)

/-- Modelled from the spec: one full poll tick over all configured
servables; `listing` gives the children of each base path. -/
def pollAllServables (s : FileSystemStoragePathSource)
    (listing : String → List String) : List CallbackEvent :=
  s.config.servables.flatMap
    (fun sv => pollServableAndInvokeCallback s sv (listing sv.base_path))

/-- The observable trace of a successful `UpdateConfig` followed by the
next poll tick: the synchronously emitted unaspire notifications precede
every poll result.  A failed `UpdateConfig` changes nothing, so the trace
is just the poll of the unchanged state. -/
def updateConfigThenPoll (s : FileSystemStoragePathSource)
    (new_config : FileSystemStoragePathSourceConfig)
    (listing : String → List String) : List CallbackEvent :=
  let r := updateConfig s new_config
  r.2.2 ++ pollAllServables r.2.1 listing

/-- The `BatchingParameters` proto fields used by
`WrapSessionForBatching`: `max_batch_size` is an optional wrapped value
(`has_max_batch_size` is modelled by `Option`), `allowed_batch_sizes` a
repeated field, `pad_variable_length_inputs` a plain bool. -/
structure BatchingParameters where
  max_batch_size : Option Int
  allowed_batch_sizes : List Int
  pad_variable_length_inputs : Bool
deriving DecidableEq, Repr

/-- The effective max batch size used by the validation in
`WrapSessionForBatching`: the configured `max_batch_size` when set,
otherwise `Batcher::QueueOptions().input_batch_size_limit` — the
scheduler's own default, passed in here as `default_limit` since the
scheduler is an external collaborator. -/
def effectiveMaxBatchSize (default_limit : Int) (p : BatchingParameters) : Int :=
  match p.max_batch_size with
  | some v => v
  | none => default_limit

/-- The `allowed_batch_sizes` check of `WrapSessionForBatching`: the list
is non-empty and its last entry differs from the effective max batch
size. -/
def lastAllowedSizeMismatch (default_limit : Int) (p : BatchingParameters) : Bool :=
  match p.allowed_batch_sizes.getLast? with
  | none => false
  | some last => decide (last ≠ effectiveMaxBatchSize default_limit p)

/-- The state of the caller's `std::unique_ptr<Session>` slot: null, a
plain session, or a batching session wrapping an inner session. -/
inductive SessionPtr where
  | null
  | plain (id : Nat)
  | batching (inner : SessionPtr)
deriving DecidableEq, Repr

/-- Embeds `WrapSessionForBatching` from `bundle_factory_util.cc`.  In
source order: a null `batch_scheduler` fails with an internal error; a
null `*session` fails with an internal error; a non-empty
`allowed_batch_sizes` whose last entry differs from the effective max
batch size fails with an invalid-argument error; otherwise the session
slot is replaced by a batching session wrapping the original session.
The scheduler `shared_ptr` is modelled as `Option Nat` and the caller's
session slot is threaded in and out explicitly.  Returns
(status, final session slot). -/
def wrapSessionForBatching (default_limit : Int) (batching_config : BatchingParameters)
    (batch_scheduler : Option Nat) (session : SessionPtr) :
    Except ErrorCode Unit × SessionPtr :=
  if batch_scheduler = none then
    (Except.error ErrorCode.internal, session)
  else if session = SessionPtr.null then
    (Except.error ErrorCode.internal, session)
  else if lastAllowedSizeMismatch default_limit batching_config then
    (Except.error ErrorCode.invalidArgument, session)
  else
    (Except.ok (), SessionPtr.batching session)

/-- One batching task: a caller's request together with its
batch-dimension size. -/
structure BatchTask where
  size : Nat
deriving DecidableEq, Repr

/-- Modelled from the spec: the body of `SplitInputTask` (delegated to by
the `split_input_task_func` lambda of `WrapSessionForBatching`) is not in
the source excerpt.  Per the spec's splitting algorithm, an incoming task
whose batch-dimension size exceeds the remaining capacity of the currently
open batch is partitioned into a first sub-task sized to exactly fill the
remaining capacity and a second sub-task sized to the remainder.  The
`max_batch_size` argument mirrors the lambda's signature. -/
def splitInputTask (input_task : BatchTask) (open_batch_remaining_slot : Nat)
    (_max_batch_size : Nat) : List BatchTask :=
  [⟨open_batch_remaining_slot⟩, ⟨input_task.size - open_batch_remaining_slot⟩]

/-- The queue options relevant to admission control:
`max_enqueued_batches` bounds the closed-but-unexecuted batches a queue
may hold, `input_batch_size_limit` bounds the total size of one batch. -/
structure QueueOptions where
  max_enqueued_batches : Nat
  input_batch_size_limit : Nat
deriving DecidableEq, Repr

/-- One task queue of the shared batch scheduler: the closed batches not
yet executed, and the currently open batch. -/
structure TaskQueue where
  closed_batches : List (List BatchTask)
  open_batch : List BatchTask
deriving DecidableEq, Repr

/-- The total batch-dimension size of a batch. -/
def batchSize (b : List BatchTask) : Nat :=
  (b.map BatchTask.size).sum

/-- Modelled from the spec: the queue admission logic of the shared batch
scheduler is not in the source excerpt.  Per the spec's backpressure rule,
when the queue already holds `max_enqueued_batches` closed-but-unexecuted
batches a new task is rejected immediately (the queue is unchanged, the
task is not buffered); otherwise the task joins the open batch, closing it
first when the task does not fit.  Returns (status, new queue state). -/
def scheduleTask (opts : QueueOptions) (q : TaskQueue) (t : BatchTask) :
    Except ErrorCode Unit × TaskQueue :=
  if opts.max_enqueued_batches ≤ q.closed_batches.length then
    (Except.error ErrorCode.unavailable, q)
  else if batchSize q.open_batch + t.size ≤ opts.input_batch_size_limit then
    (Except.ok (), { q with open_batch := q.open_batch ++ [t] })
  else
    (Except.ok (),
      { closed_batches := q.closed_batches ++ [q.open_batch], open_batch := [t] })
/-- The events produced by the notifier part of
`CallAspiredVersionsCallback`: one `notifierRun` when the test notifier is
set, nothing otherwise. -/
def notifierEvents (s : FileSystemStoragePathSource) : List CallbackEvent :=
  match s.aspired_versions_callback_notifier with
  | none => []
  | some nf => [CallbackEvent.notifierRun nf]

/-- Example child names from the spec's testable properties. -/
def ch1 : String := "1"

/-- Example child name. -/
def ch2 : String := "2"

/-- Example non-numeric child name. -/
def chAbc : String := "abc"

/-- Example child name, the maximum numeric child. -/
def ch10 : String := "10"

/-- The spec's example base-path children. -/
def exChildren : List String := [ch1, ch2, chAbc, ch10]

/-- Example servable name from the spec. -/
def fooName : String := "foo"

/-- Example base path. -/
def fooBase : String := "models/foo"

/-- Example servable entry. -/
def exFooServable : ServableToMonitor := ⟨fooName, fooBase⟩

/-- Example configuration monitoring the `foo` servable with polling
period 1. -/
def exOldConfig : FileSystemStoragePathSourceConfig := ⟨[exFooServable], 1⟩

/-- Example new configuration dropping every servable, same period. -/
def exNewConfig : FileSystemStoragePathSourceConfig := ⟨[], 1⟩

/-- Example new configuration with a changed polling period. -/
def exNewConfigPeriod2 : FileSystemStoragePathSourceConfig := ⟨[], 2⟩

/-- Example source state with a registered callback (id 0), no notifier,
and a started periodic polling thread. -/
def exSource : FileSystemStoragePathSource :=
  ⟨exOldConfig, some 0, none, ThreadType.periodic⟩

/-- Example source state before any callback registration. -/
def exSourceNoCb : FileSystemStoragePathSource :=
  ⟨exOldConfig, none, none, ThreadType.monostate⟩

/-- Example source state with callback id 0 and notifier id 5. -/
def exSourceWithNotifier : FileSystemStoragePathSource :=
  ⟨exOldConfig, some 0, some 5, ThreadType.periodic⟩

/-- The spec's accepted batching parameters:
`allowed_batch_sizes = [2,4,8]`, `max_batch_size = 8`. -/
def exParamsOk : BatchingParameters := ⟨some 8, [2, 4, 8], false⟩

/-- The spec's rejected batching parameters:
`allowed_batch_sizes = [2,4,6]`, `max_batch_size = 8`. -/
def exParamsBad : BatchingParameters := ⟨some 8, [2, 4, 6], false⟩

/-- Example queue options with `max_enqueued_batches = 1`. -/
def exQueueOptions : QueueOptions := ⟨1, 4⟩

/-- Example queue already holding one closed, unexecuted batch. -/
def exFullQueue : TaskQueue := ⟨[[⟨1⟩]], []⟩

/-- Example single-unit task. -/
def exTask : BatchTask := ⟨1⟩

theorem maxNumericChild_eq_none_iff (l : List (String × Nat)) :
    maxNumericChild l = none ↔ l = [] := by
  cases l with
  | nil => simp [maxNumericChild]
  | cons p ps =>
    simp only [maxNumericChild]
    cases h : maxNumericChild ps with
    | none => simp
    | some q =>
      constructor
      · intro hc
        by_cases hgt : q.2 > p.2 <;> simp [hgt] at hc
      · intro hc
        exact absurd hc (List.cons_ne_nil p ps)

theorem maxNumericChild_mem (l : List (String × Nat)) (p : String × Nat)
    (h : maxNumericChild l = some p) : p ∈ l := by
  induction l with
  | nil => simp [maxNumericChild] at h
  | cons a as ih =>
    simp only [maxNumericChild] at h
    cases hm : maxNumericChild as with
    | none =>
      rw [hm] at h
      simp at h
      simp [h]
    | some q =>
      rw [hm] at h
      by_cases hgt : q.2 > a.2
      · simp [hgt] at h
        subst h
        exact List.mem_cons_of_mem a (ih hm)
      · simp [hgt] at h
        simp [h]

theorem maxNumericChild_is_max (l : List (String × Nat)) (p : String × Nat)
    (h : maxNumericChild l = some p) : ∀ q ∈ l, q.2 ≤ p.2 := by
  induction l generalizing p with
  | nil => simp [maxNumericChild] at h
  | cons a as ih =>
    simp only [maxNumericChild] at h
    intro q hq
    cases hm : maxNumericChild as with
    | none =>
      rw [hm] at h
      simp at h
      subst h
      rcases List.mem_cons.mp hq with rfl | hq'
      · exact le_refl _
      · exact absurd ((maxNumericChild_eq_none_iff as).mp hm ▸ hq') (List.not_mem_nil q)
    | some r =>
      rw [hm] at h
      rcases List.mem_cons.mp hq with rfl | hq'
      · by_cases hgt : r.2 > q.2
        · simp [hgt] at h
          subst h
          exact le_of_lt hgt
        · simp [hgt] at h
          subst h
          exact le_refl _
      · have hr := ih r hm q hq'
        by_cases hgt : r.2 > a.2
        · simp [hgt] at h
          subst h
          exact hr
        · simp [hgt] at h
          subst h
          exact le_trans hr (le_of_not_gt hgt)

theorem mem_numericChildren_iff (children : List String) (c : String) (n : Nat) :
    (c, n) ∈ numericChildren children ↔ c ∈ children ∧ parseNonNegInt c = some n := by
  simp only [numericChildren, List.mem_filterMap, Option.map_eq_some']
  constructor
  · rintro ⟨a, ha, m, hm, heq⟩
    obtain ⟨rfl, rfl⟩ : a = c ∧ m = n := by
      constructor <;> [exact congrArg Prod.fst heq; exact congrArg Prod.snd heq]
    exact ⟨ha, hm⟩
  · rintro ⟨hc, hp⟩
    exact ⟨c, hc, n, hp, rfl⟩

theorem numericChildren_eq_nil_iff (children : List String) :
    numericChildren children = [] ↔ ∀ c ∈ children, parseNonNegInt c = none := by
  simp only [numericChildren, List.filterMap_eq_nil_iff, Option.map_eq_none']

theorem callAspiredVersionsCallback_some (s : FileSystemStoragePathSource) (cb : Nat)
    (h : s.aspired_versions_callback = some cb) (name : String)
    (vs : List ServableVersion) :
    callAspiredVersionsCallback s name vs
      = CallbackEvent.callbackRun cb name vs :: notifierEvents s := by
  simp [callAspiredVersionsCallback, notifierEvents, h]

theorem setAspiredVersionsCallback_thread_started
    (s : FileSystemStoragePathSource) (cb : Nat) :
    (setAspiredVersionsCallback s cb).fs_polling_thread ≠ ThreadType.monostate := by
  cases h : s.fs_polling_thread with
  | monostate =>
    simp only [setAspiredVersionsCallback, h]
    split <;> simp
  | periodic => simp [setAspiredVersionsCallback, h]
  | oneShot => simp [setAspiredVersionsCallback, h]

theorem count_notifierEvents (s : FileSystemStoragePathSource) (cb : Nat)
    (name : String) (vs : List ServableVersion) :
    (notifierEvents s).count (CallbackEvent.callbackRun cb name vs) = 0 := by
  cases h : s.aspired_versions_callback_notifier <;>
    simp [notifierEvents, h, List.count_cons]

theorem count_unaspireServables (s : FileSystemStoragePathSource) (cb : Nat)
    (hcb : s.aspired_versions_callback = some cb) (names : List String)
    (name : String) :
    (unaspireServables s names).count (CallbackEvent.callbackRun cb name [])
      = names.count name := by
  induction names with
  | nil => simp [unaspireServables]
  | cons a as ih =>
    simp only [unaspireServables, List.flatMap_cons, List.count_append]
    rw [callAspiredVersionsCallback_some s cb hcb]
    rw [List.count_cons, List.count_cons]
    have hrest : (unaspireServables s as).count (CallbackEvent.callbackRun cb name [])
        = as.count name := ih
    simp only [unaspireServables] at hrest
    rw [hrest, count_notifierEvents]
    by_cases hna : name = a
    · subst hna
      simp [Nat.add_comm]
    · have hna' : ¬ a = name := fun h => hna h.symm
      simp [hna, hna']

theorem count_droppedServableNames
    (old_config new_config : FileSystemStoragePathSourceConfig) (name : String)
    (hold : name ∈ old_config.servables.map ServableToMonitor.servable_name)
    (hnew : name ∉ new_config.servables.map ServableToMonitor.servable_name) :
    (droppedServableNames old_config new_config).count name = 1 := by
  have hmem : name ∈ droppedServableNames old_config new_config := by
    simp only [droppedServableNames, List.mem_filter, List.mem_dedup,
      decide_eq_true_eq]
    exact ⟨hold, hnew⟩
  have hnd : (droppedServableNames old_config new_config).Nodup :=
    (List.nodup_dedup _).filter _
  exact List.count_eq_one_of_mem hnd hmem

theorem lastAllowedSizeMismatch_iff (default_limit : Int) (p : BatchingParameters) :
    lastAllowedSizeMismatch default_limit p = true ↔
      ∃ last, p.allowed_batch_sizes.getLast? = some last ∧
        last ≠ effectiveMaxBatchSize default_limit p := by
  unfold lastAllowedSizeMismatch
  cases hl : p.allowed_batch_sizes.getLast? with
  | none => simp [hl]
  | some last => simp [hl]

/-- C1: for every configured servable and every successful poll of its
base path, the aspired version reported through the callback is exactly
the single numeric child with the maximum parsed value, with storage path
`base/child`; if no child name parses as a non-negative integer the
callback is invoked with an empty version list; non-numeric children are
ignored and never cause an error. -/
theorem C1_poll_reports_max_numeric_child (s : FileSystemStoragePathSource)
    (cb : Nat) (hcb : s.aspired_versions_callback = some cb)
    (sv : ServableToMonitor) (children : List String) :
    ((∀ c ∈ children, parseNonNegInt c = none) →
      pollServableAndInvokeCallback s sv children
        = CallbackEvent.callbackRun cb sv.servable_name [] :: notifierEvents s) ∧
    (∀ c n, c ∈ children → parseNonNegInt c = some n →
      ∃ cm nm, cm ∈ children ∧ parseNonNegInt cm = some nm ∧
        (∀ c' n', c' ∈ children → parseNonNegInt c' = some n' → n' ≤ nm) ∧
        pollServableAndInvokeCallback s sv children
          = CallbackEvent.callbackRun cb sv.servable_name
              [⟨nm, sv.base_path ++ "/" ++ cm⟩] :: notifierEvents s) := by
  constructor
  · intro hall
    have hnil : numericChildren children = [] :=
      (numericChildren_eq_nil_iff children).mpr hall
    have hpoll : pollServable sv.base_path children = [] := by
      simp [pollServable, hnil, maxNumericChild]
    simp only [pollServableAndInvokeCallback, hpoll,
      callAspiredVersionsCallback_some s cb hcb]
  · intro c n hc hn
    have hmem : (c, n) ∈ numericChildren children :=
      (mem_numericChildren_iff children c n).mpr ⟨hc, hn⟩
    cases hmax : maxNumericChild (numericChildren children) with
    | none =>
      rw [(maxNumericChild_eq_none_iff _).mp hmax] at hmem
      exact absurd hmem (List.not_mem_nil _)
    | some p =>
      have hpmem : (p.1, p.2) ∈ numericChildren children := by
        have := maxNumericChild_mem _ p hmax
        simpa using this
      obtain ⟨hcm, hpm⟩ := (mem_numericChildren_iff children p.1 p.2).mp hpmem
      refine ⟨p.1, p.2, hcm, hpm, ?_, ?_⟩
      · intro c' n' hc' hn'
        exact maxNumericChild_is_max _ p hmax (c', n')
          ((mem_numericChildren_iff children c' n').mpr ⟨hc', hn'⟩)
      · have hpoll : pollServable sv.base_path children
            = [⟨p.2, sv.base_path ++ "/" ++ p.1⟩] := by
          simp [pollServable, hmax]
        simp only [pollServableAndInvokeCallback, hpoll,
          callAspiredVersionsCallback_some s cb hcb]

/-- Witness for C1 at the spec's example children: the aspired set is
exactly version 10 with path `base/"10"` (instantiated at the example
source and servable). -/
theorem C1_witness :
    ∃ cm nm, cm ∈ exChildren ∧ parseNonNegInt cm = some nm ∧
      (∀ c' n', c' ∈ exChildren → parseNonNegInt c' = some n' → n' ≤ nm) ∧
      pollServableAndInvokeCallback exSource exFooServable exChildren
        = CallbackEvent.callbackRun 0 exFooServable.servable_name
            [⟨nm, exFooServable.base_path ++ "/" ++ cm⟩] :: notifierEvents exSource :=
  (C1_poll_reports_max_numeric_child exSource 0 rfl exFooServable exChildren).2
    ch10 10 (by decide) (by decide)

/-- C2: with a set scheduler and session, `WrapSessionForBatching` fails
with an invalid-argument error exactly when `allowed_batch_sizes` is
non-empty and its last element differs from the effective max batch size
(the configured `max_batch_size` when set, otherwise the scheduler's own
default queue-option limit); when the last element matches, the parameters
are accepted. -/
theorem C2_allowed_batch_sizes_validation (default_limit : Int)
    (p : BatchingParameters) (sch : Nat) (sess : SessionPtr)
    (hsess : sess ≠ SessionPtr.null) :
    ((wrapSessionForBatching default_limit p (some sch) sess).1
        = Except.error ErrorCode.invalidArgument ↔
      ∃ last, p.allowed_batch_sizes.getLast? = some last ∧
        last ≠ effectiveMaxBatchSize default_limit p) ∧
    ((∀ last, p.allowed_batch_sizes.getLast? = some last →
        last = effectiveMaxBatchSize default_limit p) →
      (wrapSessionForBatching default_limit p (some sch) sess).1
        = Except.ok ()) := by
  have hsch : ¬ ((some sch : Option Nat) = none) := by simp
  constructor
  · rw [← lastAllowedSizeMismatch_iff]
    by_cases hm : lastAllowedSizeMismatch default_limit p <;>
      simp [wrapSessionForBatching, hsch, hsess, hm]
  · intro hall
    have hm : ¬ (lastAllowedSizeMismatch default_limit p = true) := by
      rw [lastAllowedSizeMismatch_iff]
      rintro ⟨last, hl, hne⟩
      exact hne (hall last hl)
    simp [wrapSessionForBatching, hsch, hsess, hm]

/-- Witness for C2 at the spec's examples: `[2,4,6]` with
`max_batch_size = 8` is rejected with invalid-argument, `[2,4,8]` with
`max_batch_size = 8` is accepted. -/
theorem C2_witness :
    (wrapSessionForBatching 1000 exParamsBad (some 0) (SessionPtr.plain 0)).1
        = Except.error ErrorCode.invalidArgument ∧
    (wrapSessionForBatching 1000 exParamsOk (some 0) (SessionPtr.plain 0)).1
        = Except.ok () :=
  ⟨(C2_allowed_batch_sizes_validation 1000 exParamsBad 0 (SessionPtr.plain 0)
        (by decide)).1.mpr ⟨6, by decide, by decide⟩,
   (C2_allowed_batch_sizes_validation 1000 exParamsOk 0 (SessionPtr.plain 0)
        (by decide)).2 (by
      intro last hl
      have h8 : exParamsOk.allowed_batch_sizes.getLast? = some 8 := rfl
      rw [h8] at hl
      rw [← Option.some_inj.mp hl]
      rfl)⟩

/-- C5: `WrapSessionForBatching` fails with an internal error whenever the
batch scheduler handle or the underlying session handle is unset, and the
session slot is left as it was — no batching wrapper is created. -/
theorem C5_internal_error_when_unset (default_limit : Int)
    (p : BatchingParameters) (sch : Option Nat) (sess : SessionPtr)
    (h : sch = none ∨ sess = SessionPtr.null) :
    (wrapSessionForBatching default_limit p sch sess).1
        = Except.error ErrorCode.internal ∧
    (wrapSessionForBatching default_limit p sch sess).2 = sess := by
  rcases h with h | h
  · simp [wrapSessionForBatching, h]
  · subst h
    by_cases hs : sch = none
    · simp [wrapSessionForBatching, hs]
    · simp [wrapSessionForBatching, hs]

/-- Witness for C5: an unset scheduler with a live session yields the
internal error and leaves the session slot unchanged. -/
theorem C5_witness :
    (wrapSessionForBatching 1000 exParamsOk none (SessionPtr.plain 3)).1
        = Except.error ErrorCode.internal ∧
    (wrapSessionForBatching 1000 exParamsOk none (SessionPtr.plain 3)).2
        = SessionPtr.plain 3 :=
  C5_internal_error_when_unset 1000 exParamsOk none (SessionPtr.plain 3)
    (Or.inl rfl)

/-- C10: whenever `WrapSessionForBatching` returns an error — unset
scheduler, unset session, or the allowed-batch-sizes mismatch — the
caller's session slot is returned unchanged: the underlying session is
neither consumed nor replaced on any error path. -/
theorem C10_session_unchanged_on_error (default_limit : Int)
    (p : BatchingParameters) (sch : Option Nat) (sess : SessionPtr)
    (e : ErrorCode)
    (h : (wrapSessionForBatching default_limit p sch sess).1
      = Except.error e) :
    (wrapSessionForBatching default_limit p sch sess).2 = sess := by
  by_cases h1 : sch = none
  · simp [wrapSessionForBatching, h1]
  · by_cases h2 : sess = SessionPtr.null
    · simp [wrapSessionForBatching, h1, h2]
    · by_cases h3 : lastAllowedSizeMismatch default_limit p
      · simp [wrapSessionForBatching, h1, h2, h3]
      · simp [wrapSessionForBatching, h1, h2, h3] at h

/-- Witness for C10: the rejected batching parameters leave the session
slot holding the original plain session. -/
theorem C10_witness :
    (wrapSessionForBatching 1000 exParamsBad (some 0) (SessionPtr.plain 3)).2
        = SessionPtr.plain 3 :=
  C10_session_unchanged_on_error 1000 exParamsBad (some 0) (SessionPtr.plain 3)
    ErrorCode.invalidArgument (by simp [wrapSessionForBatching]; rfl)

/-- C3: every successful `UpdateConfig` call, for every servable present
in the old configuration but absent from the new one, synchronously emits
exactly one empty aspired-versions notification for that servable, and in
the combined trace every such notification precedes every subsequent poll
result. -/
theorem C3_update_config_unaspires_dropped (s : FileSystemStoragePathSource)
    (new_config : FileSystemStoragePathSourceConfig) (cb : Nat) (name : String)
    (listing : String → List String)
    (hcb : s.aspired_versions_callback = some cb)
    (hok : (updateConfig s new_config).1 = Except.ok ())
    (hold : name ∈ s.config.servables.map ServableToMonitor.servable_name)
    (hnew : name ∉ new_config.servables.map ServableToMonitor.servable_name) :
    ((updateConfig s new_config).2.2).count
        (CallbackEvent.callbackRun cb name []) = 1 ∧
    updateConfigThenPoll s new_config listing
      = (updateConfig s new_config).2.2
          ++ pollAllServables (updateConfig s new_config).2.1 listing := by
  by_cases hcond : s.fs_polling_thread ≠ ThreadType.monostate ∧
      new_config.file_system_poll_wait_seconds
        ≠ s.config.file_system_poll_wait_seconds
  · simp [updateConfig, hcond] at hok
  · constructor
    · simp only [updateConfig, if_neg hcond]
      rw [count_unaspireServables s cb hcb]
      exact count_droppedServableNames s.config new_config name hold hnew
    · rfl

/-- Witness for C3: dropping servable `foo` from the example source's
configuration emits exactly one `(foo, [])` notification, placed before
all poll results of the following tick. -/
theorem C3_witness :
    ((updateConfig exSource exNewConfig).2.2).count
        (CallbackEvent.callbackRun 0 fooName []) = 1 ∧
    updateConfigThenPoll exSource exNewConfig (fun _ => [])
      = (updateConfig exSource exNewConfig).2.2
          ++ pollAllServables (updateConfig exSource exNewConfig).2.1
              (fun _ => []) :=
  C3_update_config_unaspires_dropped exSource exNewConfig 0 fooName
    (fun _ => []) rfl rfl (by decide) (by decide)

/-- C6: after `SetAspiredVersionsCallback` has been called, an
`UpdateConfig` whose configuration changes the polling period fails with
an invalid-state error; the state is unchanged and nothing is emitted, so
the source's observable behavior is otherwise unaffected. -/
theorem C6_period_change_after_callback_fails
    (s0 : FileSystemStoragePathSource) (cb : Nat)
    (new_config : FileSystemStoragePathSourceConfig)
    (hperiod : new_config.file_system_poll_wait_seconds ≠
      (setAspiredVersionsCallback s0 cb).config.file_system_poll_wait_seconds) :
    updateConfig (setAspiredVersionsCallback s0 cb) new_config
      = (Except.error ErrorCode.invalidState,
          setAspiredVersionsCallback s0 cb, []) := by
  unfold updateConfig
  rw [if_pos]
  exact ⟨setAspiredVersionsCallback_thread_started s0 cb, hperiod⟩

/-- Witness for C6: registering a callback on the example source and then
changing the period from 1 to 2 fails with the invalid-state error,
leaving state and trace untouched. -/
theorem C6_witness :
    updateConfig (setAspiredVersionsCallback exSourceNoCb 0) exNewConfigPeriod2
      = (Except.error ErrorCode.invalidState,
          setAspiredVersionsCallback exSourceNoCb 0, []) :=
  C6_period_change_after_callback_fails exSourceNoCb 0 exNewConfigPeriod2
    (by decide)

/-- C7: `SetAspiredVersionsCallback` registers the single callback that
subsequent notifications are delivered to, starts the background polling
activity if it has not already started (and leaves it alone otherwise),
and a second call replaces the first callback so that only the most recent
one receives notifications. -/
theorem C7_set_callback_registers_and_starts (s : FileSystemStoragePathSource)
    (cb cb' : Nat) (name : String) (vs : List ServableVersion) :
    (setAspiredVersionsCallback s cb).aspired_versions_callback = some cb ∧
    (setAspiredVersionsCallback s cb).fs_polling_thread
        ≠ ThreadType.monostate ∧
    (s.fs_polling_thread ≠ ThreadType.monostate →
      (setAspiredVersionsCallback s cb).fs_polling_thread
        = s.fs_polling_thread) ∧
    (setAspiredVersionsCallback (setAspiredVersionsCallback s cb)
        cb').aspired_versions_callback = some cb' ∧
    callAspiredVersionsCallback
        (setAspiredVersionsCallback (setAspiredVersionsCallback s cb) cb')
        name vs
      = CallbackEvent.callbackRun cb' name vs :: notifierEvents s := by
  refine ⟨rfl, setAspiredVersionsCallback_thread_started s cb, ?_, rfl, ?_⟩
  · intro h
    cases ht : s.fs_polling_thread with
    | monostate => exact absurd ht h
    | periodic => simp [setAspiredVersionsCallback, ht]
    | oneShot => simp [setAspiredVersionsCallback, ht]
  · rw [callAspiredVersionsCallback_some _ cb' rfl]
    simp [notifierEvents, setAspiredVersionsCallback]

/-- Witness for C7 at the example source: the polling activity already
started is left as it was, and after two registrations only the second
callback id is registered. -/
theorem C7_witness :
    (setAspiredVersionsCallback exSource 1).fs_polling_thread
        = exSource.fs_polling_thread ∧
    (setAspiredVersionsCallback (setAspiredVersionsCallback exSource 1)
        2).aspired_versions_callback = some 2 :=
  ⟨(C7_set_callback_registers_and_starts exSource 1 2 fooName []).2.2.1
      (by decide),
   (C7_set_callback_registers_and_starts exSource 1 2 fooName []).2.2.2.1⟩

/-- C9: `CallAspiredVersionsCallback` is a no-op when no aspired-versions
callback is registered — no callback and no notifier invocation occurs;
when a callback is registered it runs, and a set notifier runs exactly
once, immediately after the callback. -/
theorem C9_call_callback_guard_and_notifier (s : FileSystemStoragePathSource)
    (name : String) (vs : List ServableVersion) :
    (s.aspired_versions_callback = none →
      callAspiredVersionsCallback s name vs = []) ∧
    (∀ cb nf, s.aspired_versions_callback = some cb →
      s.aspired_versions_callback_notifier = some nf →
      callAspiredVersionsCallback s name vs
        = [CallbackEvent.callbackRun cb name vs,
           CallbackEvent.notifierRun nf]) ∧
    (∀ cb, s.aspired_versions_callback = some cb →
      s.aspired_versions_callback_notifier = none →
      callAspiredVersionsCallback s name vs
        = [CallbackEvent.callbackRun cb name vs]) := by
  refine ⟨?_, ?_, ?_⟩
  · intro h
    simp [callAspiredVersionsCallback, h]
  · intro cb nf hcb hnf
    simp [callAspiredVersionsCallback, hcb, hnf]
  · intro cb hcb hnf
    simp [callAspiredVersionsCallback, hcb, hnf]

/-- Witness for C9: with no callback registered nothing runs; with
callback 0 and notifier 5 registered the notifier runs exactly once,
immediately after the callback. -/
theorem C9_witness :
    callAspiredVersionsCallback exSourceNoCb fooName [] = [] ∧
    callAspiredVersionsCallback exSourceWithNotifier fooName []
      = [CallbackEvent.callbackRun 0 fooName [],
         CallbackEvent.notifierRun 5] :=
  ⟨(C9_call_callback_guard_and_notifier exSourceNoCb fooName []).1 rfl,
   (C9_call_callback_guard_and_notifier exSourceWithNotifier fooName []).2.1
      0 5 rfl rfl⟩

/-- C4: an incoming task whose batch-dimension size exceeds the remaining
capacity of the currently open batch is split into a first sub-task whose
size exactly equals the remaining capacity and a second sub-task sized to
the remainder; the split conserves the total size and never produces a
sub-task of size zero. -/
theorem C4_split_input_task (input_task : BatchTask)
    (open_batch_remaining_slot : Nat) (max_size : Nat)
    (hpos : 0 < open_batch_remaining_slot)
    (hexceeds : open_batch_remaining_slot < input_task.size) :
    splitInputTask input_task open_batch_remaining_slot max_size
        = [⟨open_batch_remaining_slot⟩,
           ⟨input_task.size - open_batch_remaining_slot⟩] ∧
    batchSize (splitInputTask input_task open_batch_remaining_slot max_size)
        = input_task.size ∧
    (∀ t ∈ splitInputTask input_task open_batch_remaining_slot max_size,
      0 < t.size) := by
  refine ⟨rfl, ?_, ?_⟩
  · simp only [splitInputTask, batchSize, List.map_cons, List.map_nil,
      List.sum_cons, List.sum_nil]
    omega
  · intro t ht
    simp only [splitInputTask, List.mem_cons, List.mem_singleton] at ht
    rcases ht with rfl | rfl | h
    · exact hpos
    · simp only
      omega
    · exact absurd h (List.not_mem_nil t)

/-- Witness for C4 at the spec's example: a task of size 3 with 2
remaining slots (max size 4) splits into a 2-unit and a 1-unit sub-task. -/
theorem C4_witness :
    splitInputTask ⟨3⟩ 2 4 = [⟨2⟩, ⟨1⟩] ∧
    batchSize (splitInputTask ⟨3⟩ 2 4) = 3 ∧
    (∀ t ∈ splitInputTask ⟨3⟩ 2 4, 0 < t.size) := by
  have h := C4_split_input_task ⟨3⟩ 2 4 (by decide) (by decide)
  exact ⟨by decide, h.2.1, h.2.2⟩

/-- C8: when a queue already holds `max_enqueued_batches` closed,
not-yet-executed batches, scheduling a new task fails immediately with the
admission rejection and the queue is unchanged — the task is neither
blocked on nor buffered. -/
theorem C8_full_queue_rejects_immediately (opts : QueueOptions)
    (q : TaskQueue) (t : BatchTask)
    (hfull : q.closed_batches.length = opts.max_enqueued_batches) :
    scheduleTask opts q t = (Except.error ErrorCode.unavailable, q) := by
  simp [scheduleTask, hfull]

/-- Witness for C8: a queue holding its single allowed closed batch
rejects a new single-unit task and is left unchanged. -/
theorem C8_witness :
    scheduleTask exQueueOptions exFullQueue exTask
      = (Except.error ErrorCode.unavailable, exFullQueue) :=
  C8_full_queue_rejects_immediately exQueueOptions exFullQueue exTask
    (by decide)
